import Mathlib

/-
Verification of the food-classification-and-nutrition pipeline.

Shallow embedding of three Python sources:
  * "food-and-nutrition/FastAPI server (food)/main.py"  (the rich server)
  * "model image classifier/imageclassifier.py"         (the CLI classifier)
  * "FastAPI server (food)/main.py"                     (the legacy minimal server)

Network I/O is modelled by an environment mapping the query term sent to the
nutrition provider to an outcome (a response with status code and parsed JSON,
or a raised exception).  JSON fields are tri-state (`missing` key, `null`
value, or a value), mirroring Python's `dict.get` semantics.  Exceptions are
modelled with `Except`; `try`/`except` blocks become explicit handler matches.
-/

/-- Tri-state JSON field: the key is absent, present with value `null`, or
present with a value.  Mirrors what Python `dict.get(key, default)` can see. -/
inductive JField (α : Type) where
  | missing
  | null
  | val (a : α)
deriving DecidableEq

/-- Python exception classes relevant to the sources: `requests` Timeout,
ConnectionError, other RequestException, KeyError, and any other Exception. -/
inductive PyExc where
  | timeoutE
  | connE
  | reqE
  | keyE
  | otherE
deriving DecidableEq

deriving instance DecidableEq for Except

/-- A Python numeric value that may be `None` (`none` here models Python
`None`, `some q` a number). -/
abbrev PyVal := Option ℚ

/-- One entry of the USDA `foodNutrients` array: `nutrientName`, `value`,
`unitName`, each a tri-state JSON field. -/
structure FNutrient where
  nutrientName : JField String
  value : JField ℚ
  unitName : JField String
deriving DecidableEq

/-- One entry of the USDA `foods` array: `foodNutrients`, `description`,
`dataType`, `fdcId`. -/
structure UFood where
  foodNutrients : JField (List FNutrient)
  description : JField String
  dataType : JField String
  fdcId : JField Nat
deriving DecidableEq

/-- Parsed body of a USDA search response: the `foods` field. -/
structure SearchData where
  foods : JField (List UFood)
deriving DecidableEq

/-- An HTTP response: status code plus the outcome of calling `.json()` on it
(parsing may itself raise). -/
structure HResp where
  status : Nat
  jsonBody : Except PyExc SearchData
deriving DecidableEq

/-- Outcome of `requests.get`: either a response object or a raised
exception. -/
inductive GetOutcome where
  | ok (r : HResp)
  | raise (e : PyExc)
deriving DecidableEq

/-- Network environment: what the nutrition provider does for each query
term.  Covers every upstream shape the code can see: any status code, any
JSON body (missing keys, null fields), parse failures, timeouts, connection
failures and arbitrary exceptions. -/
abbrev HttpEnv := String → GetOutcome

/- ---------------- Python string helpers ---------------- -/

/-- Python whitespace set used by `str.strip()` and `str.split()`. -/
def pyIsSpace (c : Char) : Bool :=
  c = ' ' || c = '\t' || c = '\n' || c = '\r' || c = '\x0b' || c = '\x0c'

/-- Python `s.replace("_", " ")`. -/
def pyUnderscoreToSpace (s : String) : String :=
  ⟨s.data.map (fun c => if c = '_' then ' ' else c)⟩

/-- Python `s.strip()`: drop leading and trailing whitespace. -/
def pyStrip (s : String) : String :=
  ⟨((s.data.dropWhile pyIsSpace).reverse.dropWhile pyIsSpace).reverse⟩

/-- `food_label.replace("_", " ").strip()` as done by both resolvers. -/
def cleanLabel (s : String) : String := pyStrip (pyUnderscoreToSpace s)

/-- Accumulator pass behind `pySplitWs`: split at whitespace runs, dropping
empty pieces. -/
def splitWsAux : List Char → List Char → List String
  | [], acc => if acc.isEmpty then [] else [⟨acc.reverse⟩]
  | c :: rest, acc =>
    if pyIsSpace c then
      if acc.isEmpty then splitWsAux rest [] else ⟨acc.reverse⟩ :: splitWsAux rest []
    else splitWsAux rest (c :: acc)

/-- Python `s.split()` with no argument. -/
def pySplitWs (s : String) : List String := splitWsAux s.data []

/-- Python `s.lower()`. -/
def lowerStr (s : String) : String := ⟨s.data.map Char.toLower⟩

/-- Python substring test `pat in hay` on character lists. -/
def containsSub (pat : List Char) : List Char → Bool
  | [] => pat.isEmpty
  | c :: t => pat.isPrefixOf (c :: t) || containsSub pat t

/- ---------------- Shared resolver pieces ---------------- -/

/-- `search_data.get("foods", [])` followed only by a truthiness test and (if
truthy) indexing: a missing key defaults to `[]`, a `null` value gives Python
`None` which is falsy exactly like `[]`, so both collapse to `[]` without
changing behaviour. -/
def foodsOf (d : SearchData) : List UFood :=
  match d.foods with
  | .val l => l
  | _ => []

/-- `n.get("value", 0)`: a missing `value` key defaults to the number `0`; a
null field gives Python `None`; otherwise the stored number. -/
def pyValOf (v : JField ℚ) : PyVal :=
  match v with
  | .missing => some 0
  | .null => none
  | .val q => some q

/-- `nutrient.get("nutrientName", "")` followed by `.lower()`: a missing key
defaults to `""`; a null field gives `None`, on which `.lower()` raises
(AttributeError), modelled as `none` here. -/
def nutrientNameStr (f : JField String) : Option String :=
  match f with
  | .missing => some ""
  | .null => none
  | .val s => some s

/-- Exception handlers shared by `get_nutrition_data` and
`get_nutrition_usda`: `requests.exceptions.Timeout` → timeout error,
`ConnectionError` → cannot-connect error, other `RequestException` →
request-failed error, and the final `except Exception` catches everything
else (KeyError, TypeError, AttributeError, JSON parse errors, ...). -/
inductive NutriErr where
  | authFailed
  | rateLimited
  | apiStatus (s : Nat)
  | notFound (searchedTerm suggestion : String)
  | timedOut
  | noConnect
  | requestFailed
  | unexpectedFailure
  | skippedLowConfidence
deriving DecidableEq

/-- Which error dictionary each caught exception turns into (both resolvers
have the identical four-handler ladder). -/
def handleExc : PyExc → NutriErr
  | .timeoutE => .timedOut
  | .connE => .noConnect
  | .reqE => .requestFailed
  | .keyE => .unexpectedFailure
  | .otherE => .unexpectedFailure

/- ---------------- Rich server: get_nutrition_data ---------------- -/

/-- Canonical nutrition record returned by the rich server's
`get_nutrition_data` on success (its literal dict keys). -/
structure NRecord where
  calories : PyVal
  protein_g : PyVal
  carbohydrates_total_g : PyVal
  fat_total_g : PyVal
  fiber_g : PyVal
  sugar_g : PyVal
  sodium_mg : PyVal
  food_name : Option String
deriving DecidableEq

/-- Result dictionary of the rich server's nutrition lookup: either the
nutrition record or an error dictionary. -/
inductive NutriOut where
  | record (r : NRecord)
  | errDict (e : NutriErr)
deriving DecidableEq

/-- The suggestion string of the rich server's not-found error dictionary. -/
def serverSuggestion : String :=
  "Try taking a clearer photo, a different angle, or a more common food name."

/-- Inner helper `get_nutrient(nutrients, name)` of `get_nutrition_data`:
scan the nutrient list for the first entry whose (lower-cased) name contains
the (lower-cased) search name; return its `value` (defaulting a missing value
key to `0`), or `0` when nothing matches.  A null `nutrientName` raises
(AttributeError on `None.lower()`). -/
def getNutrient : List FNutrient → String → Except PyExc PyVal
  | [], _ => .ok (some 0)
  | n :: rest, name =>
    match nutrientNameStr n.nutrientName with
    | none => .error .otherE
    | some s =>
      if containsSub (lowerStr name).toList (lowerStr s).toList then
        .ok (pyValOf n.value)
      else
        getNutrient rest name

/-- `food.get("description", "")`: missing key defaults to `""`; a null field
is Python `None`. -/
def serverFoodName (f : JField String) : Option String :=
  match f with
  | .missing => some ""
  | .null => none
  | .val s => some s

/-- Building the rich server's success dictionary from the first matching
food.  `nutrients = food.get("foodNutrients", [])`: a missing key defaults to
`[]`; a null value makes the first `for n in nutrients` raise TypeError
(caught by the generic handler).  The seven `get_nutrient` calls are
evaluated in dictionary order; any raise aborts the whole dictionary. -/
def serverExtract (food : UFood) : Except PyExc NRecord := do
  let nutrients ← match food.foodNutrients with
    | .missing => Except.ok []
    | .null => Except.error PyExc.otherE
    | .val l => Except.ok l
  let cal ← getNutrient nutrients "Energy"
  let pro ← getNutrient nutrients "Protein"
  let carb ← getNutrient nutrients "Carbohydrate"
  let fat ← getNutrient nutrients "Total lipid"
  let fib ← getNutrient nutrients "Fiber"
  let sug ← getNutrient nutrients "Sugars"
  let sod ← getNutrient nutrients "Sodium"
  Except.ok
    { calories := cal, protein_g := pro, carbohydrates_total_g := carb
      fat_total_g := fat, fiber_g := fib, sugar_g := sug, sodium_mg := sod
      food_name := serverFoodName food.description }

/-- `clean_label.split()[0] if len(clean_label.split()) > 1 else clean_label`. -/
def fallbackTerm (clean : String) : String :=
  if (pySplitWs clean).length > 1 then (pySplitWs clean).headD clean else clean

/-- Wrap a final extraction step with the exception handlers. -/
def finishServer (qs : List String) (food : UFood) : NutriOut × List String :=
  match serverExtract food with
  | .ok r => (.record r, qs)
  | .error ex => (.errDict (handleExc ex), qs)

/-- Shallow embedding of the rich server's `get_nutrition_data(food_label)`,
returning the result dictionary together with the list of query terms sent to
the provider (in order).  Each raise site is routed through `handleExc`,
reproducing the function's single `try` block with its four `except`
handlers; a query term is recorded as soon as `requests.get` is called, even
when that call raises. -/
def getNutritionRun (env : HttpEnv) (label : String) : NutriOut × List String :=
  let clean := cleanLabel label
  match env clean with
  | .raise ex => (.errDict (handleExc ex), [clean])
  | .ok resp =>
    if resp.status = 401 then (.errDict .authFailed, [clean])
    else if resp.status = 429 then (.errDict .rateLimited, [clean])
    else if resp.status ≠ 200 then (.errDict (.apiStatus resp.status), [clean])
    else
      match resp.jsonBody with
      | .error ex => (.errDict (handleExc ex), [clean])
      | .ok sd =>
        match foodsOf sd with
        | food :: _ => finishServer [clean] food
        | [] =>
          let fb := fallbackTerm clean
          match env fb with
          | .raise ex => (.errDict (handleExc ex), [clean, fb])
          | .ok fresp =>
            match (if fresp.status = 200 then
                     match fresp.jsonBody with
                     | .error ex => Except.error ex
                     | .ok fd => Except.ok (foodsOf fd)
                   else Except.ok ([] : List UFood)) with
            | .error ex => (.errDict (handleExc ex), [clean, fb])
            | .ok [] => (.errDict (.notFound clean serverSuggestion), [clean, fb])
            | .ok (food :: _) => finishServer [clean, fb] food

/-- The rich server's `get_nutrition_data`: just the result dictionary. -/
def get_nutrition_data (env : HttpEnv) (label : String) : NutriOut :=
  (getNutritionRun env label).1

/- ---------------- Rich server: predict_food_and_nutrition ---------------- -/

/-- Outcome of `Image.open(...).convert("RGB")`: decoded dimensions, an
`UnidentifiedImageError`, or another exception. -/
inductive DecodeOutcome where
  | ok (w h : Nat)
  | unidentified
  | failed
deriving DecidableEq

/-- Outcome of the preprocessing + forward pass: label, softmax confidence
and wall-clock inference duration, or an exception inside the block. -/
inductive InferOutcome where
  | ok (label : String) (confidence : ℚ) (duration : ℚ)
  | failed
deriving DecidableEq

/-- Environment of one run of the rich server's pipeline.  The model and
processor are assumed loaded (a load failure raises HTTPException at
startup); `infer` receives the dimensions of the image handed to the
processor, which lets theorems observe that inference runs on the resized
image. -/
structure ServerEnv where
  decode : DecodeOutcome
  infer : Nat → Nat → InferOutcome
  http : HttpEnv

/-- Distinct error dictionaries of `predict_food_and_nutrition`, one per
literal `{"error": ...}` message. -/
inductive ServerErr where
  | invalidImage
  | processFailed
  | tooSmall
  | inferenceFailed
deriving DecidableEq

/-- Python `round(x, 3)` rendered over ℚ (round half up at the third decimal;
CPython rounds half to even on binary floats, which agrees except on exact
decimal ties, which no claim exercises). -/
def round3 (q : ℚ) : ℚ := (⌊q * 1000 + 1 / 2⌋ : ℚ) / 1000

/-- Python `int(x)` for the nonnegative sizes that arise here. -/
def natFloor (q : ℚ) : Nat := (⌊q⌋).toNat

/-- Dimension normalization of `predict_food_and_nutrition`: if either side
exceeds `max_dimension = 2000`, scale by `min(2000/w, 2000/h)` and truncate
each side with `int(...)`. -/
def resizeDims (w h : Nat) : Nat × Nat :=
  if w > 2000 ∨ h > 2000 then
    let scale : ℚ := min ((2000 : ℚ) / w) ((2000 : ℚ) / h)
    (natFloor (w * scale), natFloor (h * scale))
  else (w, h)

/-- The success dictionary returned by `predict_food_and_nutrition`: its four
literal keys.  Note that there is no key named `error` in it regardless of
what the `nutrition` field holds. -/
structure Envelope where
  predicted_food : String
  confidence : ℚ
  nutrition : NutriOut
  inference_time : ℚ
deriving DecidableEq

/-- Return value of `predict_food_and_nutrition`: either an `{"error": ...}`
dictionary or the success envelope. -/
inductive PredictOut where
  | errResp (e : ServerErr)
  | okResp (env : Envelope)
deriving DecidableEq

/-- One pipeline run together with its observable effects: `inferred` is the
dimensions the model was invoked on (`none` when inference never ran) and
`queries` the nutrition query terms issued. -/
structure PredictRun where
  result : PredictOut
  inferred : Option (Nat × Nat)
  queries : List String
deriving DecidableEq

/-- Shallow embedding of `predict_food_and_nutrition(image_bytes)`: decode,
resize oversized images, reject images under 50 px a side, infer, then fetch
nutrition data, which is embedded in the envelope whether it succeeded or
not. -/
def predict_food_and_nutrition (env : ServerEnv) : PredictRun :=
  match env.decode with
  | .unidentified => ⟨.errResp .invalidImage, none, []⟩
  | .failed => ⟨.errResp .processFailed, none, []⟩
  | .ok w h =>
    let p := resizeDims w h
    if p.1 < 50 ∨ p.2 < 50 then ⟨.errResp .tooSmall, none, []⟩
    else
      match env.infer p.1 p.2 with
      | .failed => ⟨.errResp .inferenceFailed, some p, []⟩
      | .ok label conf t =>
        let n := getNutritionRun env.http label
        ⟨.okResp ⟨pyUnderscoreToSpace label, round3 conf, n.1, round3 t⟩,
         some p, n.2⟩

/-- The `/analyze` route's error check `if "error" in result`: an error
dictionary gets HTTP 400; the success envelope (whose keys never include
`error`, even when `nutrition` carries an error dictionary) is returned with
HTTP 200. -/
def analyzeStatus : PredictOut → Nat
  | .errResp _ => 400
  | .okResp _ => 200

/- ---------------- Classifier: get_nutrition_usda ---------------- -/

/-- The seven standardized nutrient names of the classifier's
`nutrient_map`, in its (insertion-ordered) iteration order. -/
inductive StdNutrient where
  | energy
  | protein
  | fatTotal
  | carb
  | fiber
  | sugars
  | sodium
deriving DecidableEq

/-- The `nutrient_map` variation lists. -/
def variations : StdNutrient → List String
  | .energy => ["Energy", "Calories"]
  | .protein => ["Protein"]
  | .fatTotal => ["Total lipid (fat)", "Fat, total"]
  | .carb => ["Carbohydrate, by difference", "Carbohydrates"]
  | .fiber => ["Fiber, total dietary", "Dietary fiber"]
  | .sugars => ["Sugars, total including NLEA", "Sugars"]
  | .sodium => ["Sodium, Na", "Sodium"]

/-- Iteration order of `nutrient_map.items()`. -/
def stdOrder : List StdNutrient :=
  [.energy, .protein, .fatTotal, .carb, .fiber, .sugars, .sodium]

/-- The inner matching loop: first standardized name any of whose variations
is a (case-insensitive) substring of the upstream nutrient name; `break`
after the first hit. -/
def matchStd (name : String) : Option StdNutrient :=
  stdOrder.find? (fun s =>
    (variations s).any (fun v =>
      containsSub (lowerStr v).toList (lowerStr name).toList))

/-- A stored entry `f"{nutrient_value} {nutrient_unit}"`, kept as the pair of
its two interpolated components: the value (`n.get("value", 0)`, possibly
Python `None`) and the unit (`n.get("unitName", "")`, possibly `None`). -/
abbrev NEntry := PyVal × Option String

/-- `n.get("unitName", "")`. -/
def unitOf (u : JField String) : Option String :=
  match u with
  | .missing => some ""
  | .null => none
  | .val s => some s

/-- The classifier's `nutrients` dictionary, keyed by the seven standardized
names. -/
structure NutrMap where
  energy : Option NEntry
  protein : Option NEntry
  fatTotal : Option NEntry
  carb : Option NEntry
  fiber : Option NEntry
  sugars : Option NEntry
  sodium : Option NEntry
deriving DecidableEq

/-- Dictionary lookup `nutrients.get(name)`. -/
def NutrMap.get (m : NutrMap) : StdNutrient → Option NEntry
  | .energy => m.energy
  | .protein => m.protein
  | .fatTotal => m.fatTotal
  | .carb => m.carb
  | .fiber => m.fiber
  | .sugars => m.sugars
  | .sodium => m.sodium

/-- Dictionary assignment `nutrients[name] = entry`. -/
def NutrMap.set (m : NutrMap) : StdNutrient → Option NEntry → NutrMap
  | .energy, e => { m with energy := e }
  | .protein, e => { m with protein := e }
  | .fatTotal, e => { m with fatTotal := e }
  | .carb, e => { m with carb := e }
  | .fiber, e => { m with fiber := e }
  | .sugars, e => { m with sugars := e }
  | .sodium, e => { m with sodium := e }

/-- The empty `nutrients = {}` dictionary. -/
def NutrMap.empty : NutrMap := ⟨none, none, none, none, none, none, none⟩

/-- The entry stored for a matched nutrient. -/
def entryOf (n : FNutrient) : NEntry := (pyValOf n.value, unitOf n.unitName)

/-- Standardized name a nutrient entry is assigned to, if any: `none` for no
match.  (A missing `nutrientName` reads as `""`, which matches no variation;
a null one raises before matching, handled separately.) -/
def assignedStd (name : String) : Option StdNutrient := matchStd name

/-- One iteration of the nutrient loop: read name/value/unit, assign the
entry to the first matching standardized name.  A null `nutrientName` raises
AttributeError inside the `any(...)` generator. -/
def addNutrient (m : NutrMap) (n : FNutrient) : Except PyExc NutrMap :=
  match nutrientNameStr n.nutrientName with
  | none => .error .otherE
  | some nm =>
    match matchStd nm with
    | none => .ok m
    | some s => .ok (m.set s (some (entryOf n)))

/-- The whole `for nutrient in food_nutrients` loop. -/
def buildNutrients : List FNutrient → NutrMap → Except PyExc NutrMap
  | [], m => .ok m
  | n :: rest, m =>
    match addNutrient m n with
    | .error ex => .error ex
    | .ok m2 => buildNutrients rest m2

/-- The classifier's success dictionary: metadata, the full `nutrients`
dictionary, and the `basic_nutrients` fields (`nutrients.get(key, "N/A")`,
so `none` renders as `"N/A"`).  There is no basic `sugar` field. -/
structure URecord where
  food_description : Option String
  data_source : Option String
  fdc_id : Option Nat
  nutrients : NutrMap
  calories : Option NEntry
  protein : Option NEntry
  fat : Option NEntry
  carbs : Option NEntry
  fiber : Option NEntry
  sodium : Option NEntry
deriving DecidableEq

/-- Result dictionary of `get_nutrition_usda`. -/
inductive UsdaOut where
  | record (r : URecord)
  | errDict (e : NutriErr)
deriving DecidableEq

/-- The suggestion string of the classifier's not-found error dictionary. -/
def usdaSuggestion : String := "Try a more generic food name or check spelling"

/-- Building the classifier's success dictionary from the first food.
`food.get("foodNutrients", [])` defaults a missing key to `[]`; a null value
makes the loop raise TypeError.  `food.get("description", clean_name)`
defaults to the cleaned query term.  After the dictionary is built the code
logs `food["description"]`, which raises KeyError when the key is missing,
discarding the record. -/
def usdaAssemble (clean : String) (food : UFood) (fns : List FNutrient) :
    Except PyExc URecord :=
  match buildNutrients fns NutrMap.empty with
  | .error ex => .error ex
  | .ok m =>
    let r0 : URecord :=
      { food_description :=
          (match food.description with
           | .missing => some clean
           | .null => none
           | .val s => some s)
        data_source :=
          (match food.dataType with
           | .missing => some "Unknown"
           | .null => none
           | .val s => some s)
        fdc_id := (match food.fdcId with | .val i => some i | _ => none)
        nutrients := m
        calories := m.get .energy
        protein := m.get .protein
        fat := m.get .fatTotal
        carbs := m.get .carb
        fiber := m.get .fiber
        sodium := m.get .sodium }
    match food.description with
    | .missing => Except.error PyExc.keyE
    | _ => Except.ok r0

/-- Dispatch on `food.get("foodNutrients", [])` before assembling. -/
def usdaExtract (clean : String) (food : UFood) : Except PyExc URecord :=
  match food.foodNutrients with
  | .missing => usdaAssemble clean food []
  | .null => Except.error PyExc.otherE
  | .val l => usdaAssemble clean food l

/-- Shallow embedding of `FoodClassifier.get_nutrition_usda(food_name)` with
its query trace.  Unlike the server resolver it maps 403 (not 401) to the
authentication error and performs no fallback query on zero matches. -/
def getUsdaRun (env : HttpEnv) (foodName : String) : UsdaOut × List String :=
  let clean := cleanLabel foodName
  match env clean with
  | .raise ex => (.errDict (handleExc ex), [clean])
  | .ok resp =>
    if resp.status = 403 then (.errDict .authFailed, [clean])
    else if resp.status = 429 then (.errDict .rateLimited, [clean])
    else if resp.status ≠ 200 then (.errDict (.apiStatus resp.status), [clean])
    else
      match resp.jsonBody with
      | .error ex => (.errDict (handleExc ex), [clean])
      | .ok sd =>
        match foodsOf sd with
        | [] => (.errDict (.notFound clean usdaSuggestion), [clean])
        | food :: _ =>
          match usdaExtract clean food with
          | .ok r => (.record r, [clean])
          | .error ex => (.errDict (handleExc ex), [clean])

/-- `FoodClassifier.get_nutrition_usda`: just the result dictionary. -/
def get_nutrition_usda (env : HttpEnv) (foodName : String) : UsdaOut :=
  (getUsdaRun env foodName).1

/- ---------------- Classifier: analyze_image ---------------- -/

/-- Environment of one `FoodClassifier.analyze_image` run.  `pathValid` is
the outcome of `validate_image_path` (whose raises are caught only by the
outer handler); `infer` again receives the image dimensions. -/
structure ClassifierEnv where
  pathValid : Except PyExc Unit
  decode : DecodeOutcome
  infer : Nat → Nat → InferOutcome
  http : HttpEnv

/-- Distinct error dictionaries of `analyze_image`, one per literal
`{"error": ...}` message family. -/
inductive ClassErr where
  | invalidImage
  | loadFailed
  | tooSmall
  | inferenceFailed
  | analysisFailed
deriving DecidableEq

/-- The classifier's result dictionary on the non-error paths.  `warning` is
`true` exactly when the low-confidence `"warning"` key is present;
`image_info` is `none` on the low-confidence path (that return dictionary has
no `image_info` key) and carries (path, width, height) otherwise. -/
structure ClassEnvelope where
  predicted_food : String
  confidence : ℚ
  warning : Bool
  nutrition : UsdaOut
  inference_time : ℚ
  image_info : Option (String × Nat × Nat)
deriving DecidableEq

/-- Return value of `analyze_image`. -/
inductive ClassOut where
  | errResp (e : ClassErr)
  | okResp (e : ClassEnvelope)
deriving DecidableEq

/-- One classifier run with its observable effects. -/
structure ClassRun where
  result : ClassOut
  inferred : Option (Nat × Nat)
  queries : List String
deriving DecidableEq

/-- Shallow embedding of `FoodClassifier.analyze_image(image_path)`.  No
resizing is performed (images over 4000 px only produce a log line); images
under 50 px a side are rejected before inference; a confidence below 0.3
short-circuits with a warning and a skipped-lookup error dictionary in the
nutrition slot, issuing no nutrition query. -/
def analyze_image (cenv : ClassifierEnv) (path : String) : ClassRun :=
  match cenv.pathValid with
  | .error _ => ⟨.errResp .analysisFailed, none, []⟩
  | .ok _ =>
    match cenv.decode with
    | .unidentified => ⟨.errResp .invalidImage, none, []⟩
    | .failed => ⟨.errResp .loadFailed, none, []⟩
    | .ok w h =>
      if w < 50 ∨ h < 50 then ⟨.errResp .tooSmall, none, []⟩
      else
        match cenv.infer w h with
        | .failed => ⟨.errResp .inferenceFailed, some (w, h), []⟩
        | .ok label conf t =>
          let readable := pyUnderscoreToSpace label
          if conf < 3 / 10 then
            ⟨.okResp ⟨readable, round3 conf, true, .errDict .skippedLowConfidence,
              round3 t, none⟩, some (w, h), []⟩
          else
            let n := getUsdaRun cenv.http readable
            ⟨.okResp ⟨readable, round3 conf, false, n.1, round3 t,
              some (path, w, h)⟩, some (w, h), n.2⟩

/- ---------------- Legacy minimal server ---------------- -/

/-- Parsed body of a CalorieNinjas response: the `items` field; item payloads
are passed through unchanged, so they are modelled as opaque strings. -/
structure CNData where
  items : JField (List String)
deriving DecidableEq

/-- A CalorieNinjas response: status code (never inspected by the legacy
code) plus the `.json()` outcome. -/
structure CNResp where
  status : Nat
  jsonBody : Except PyExc CNData
deriving DecidableEq

/-- Environment of one legacy pipeline run.  `decode` and `infer` can raise
(nothing catches them there); `http` maps the raw label (underscores kept) to
the outcome of the CalorieNinjas call. -/
structure LegacyEnv where
  decode : Except PyExc Unit
  infer : Except PyExc String
  http : String → Except PyExc CNResp

/-- Return dictionary of the legacy `predict_food_and_nutrition`:
`predicted_food` is the raw label and `nutrition` the first item (or `{}`,
modelled as `none`). -/
structure LegacyResult where
  predicted_food : String
  nutrition : Option String
deriving DecidableEq

/-- Shallow embedding of the legacy server's `predict_food_and_nutrition`.
There is no `try` anywhere: a decode failure, inference failure, network
exception, JSON parse failure, or a response body without an `items` key
(`nutrition_data["items"]` raises KeyError) all propagate to the caller. -/
def legacyPredict (env : LegacyEnv) : Except PyExc LegacyResult := do
  let _ ← env.decode
  let label ← env.infer
  let resp ← env.http label
  let data ← resp.jsonBody
  let firstItem ← match data.items with
    | .missing => Except.error PyExc.keyE
    | .null => Except.ok (none : Option String)
    | .val [] => Except.ok (none : Option String)
    | .val (x :: _) => Except.ok (some x)
  Except.ok ⟨label, firstItem⟩

/- ---------------- Spec-side taxonomy maps (for the amended C4) ---------------- -/

/-- Taxonomy mapping of HTTP-level failures as the amended claim states it
for the rich server: stated from the spec's words (with 403 moved out of the
auth bucket, which the counterexample forces), to be compared with
`get_nutrition_data`.  `none` means the outcome is not an HTTP-level
failure. -/
def specServerFailureMap : GetOutcome → Option NutriErr
  | .raise .timeoutE => some .timedOut
  | .raise .connE => some .noConnect
  | .raise .reqE => some .requestFailed
  | .raise .keyE => some .unexpectedFailure
  | .raise .otherE => some .unexpectedFailure
  | .ok r =>
    if r.status = 401 then some .authFailed
    else if r.status = 429 then some .rateLimited
    else if r.status = 200 then none
    else some (.apiStatus r.status)

/-- Taxonomy mapping as the amended claim states it for the classifier: 403
(not 401) is the auth failure. -/
def specClassifierFailureMap : GetOutcome → Option NutriErr
  | .raise .timeoutE => some .timedOut
  | .raise .connE => some .noConnect
  | .raise .reqE => some .requestFailed
  | .raise .keyE => some .unexpectedFailure
  | .raise .otherE => some .unexpectedFailure
  | .ok r =>
    if r.status = 403 then some .authFailed
    else if r.status = 429 then some .rateLimited
    else if r.status = 200 then none
    else some (.apiStatus r.status)

/- ---------------- Concrete test environments ---------------- -/

/-- A nutrient entry reporting 95 kcal of Energy. -/
def sampleNutrient : FNutrient := ⟨.val "Energy", .val 95, .val "kcal"⟩

/-- A well-formed food item. -/
def sampleFood : UFood := ⟨.val [sampleNutrient], .val "Pizza", .val "SR Legacy", .val 123⟩

/-- A food item whose nutrient array is literally empty. -/
def bareFood : UFood := ⟨.val [], .val "Mystery", .missing, .missing⟩

/-- A nutrient entry in which the upstream literally reports Energy 0. -/
def zeroEnergyNutrient : FNutrient := ⟨.val "Energy", .val 0, .val "kcal"⟩

/-- A food item whose only nutrient is a literal zero Energy. -/
def zeroEnergyFood : UFood := ⟨.val [zeroEnergyNutrient], .val "Egg", .missing, .missing⟩

/-- A 200 response whose foods array is empty. -/
def emptyFoods200 : GetOutcome := .ok ⟨200, .ok ⟨.val []⟩⟩

/-- A 429 (rate-limited) response. -/
def resp429 : GetOutcome := .ok ⟨429, .ok ⟨.missing⟩⟩

/-- A 403 response. -/
def resp403 : GetOutcome := .ok ⟨403, .ok ⟨.missing⟩⟩

/-- A 401 response. -/
def resp401 : GetOutcome := .ok ⟨401, .ok ⟨.missing⟩⟩

/-- Provider that always answers 200 with `sampleFood`. -/
def okFoodsEnv : HttpEnv := fun _ => .ok ⟨200, .ok ⟨.val [sampleFood]⟩⟩

/-- Provider that always answers 429. -/
def rateLimitEnv : HttpEnv := fun _ => resp429

/-- Provider that always answers 200 with an empty foods array. -/
def noFoodsEnv : HttpEnv := fun _ => emptyFoods200

/-- Provider that answers 200 with a food only for the one-word fallback
query `"fried"`, and an empty 200 otherwise. -/
def fallbackHitsEnv : HttpEnv := fun t =>
  if t = "fried" then .ok ⟨200, .ok ⟨.val [sampleFood]⟩⟩ else emptyFoods200

/-- Provider that rate-limits the one-word fallback query `"fried"` and
answers an empty 200 otherwise. -/
def fallback429Env : HttpEnv := fun t =>
  if t = "fried" then resp429 else emptyFoods200

/-- Provider that always answers 200 with `bareFood`. -/
def bareFoodEnv : HttpEnv := fun _ => .ok ⟨200, .ok ⟨.val [bareFood]⟩⟩

/-- Server run: healthy image, confident prediction, rate-limited provider. -/
def env429 : ServerEnv :=
  ⟨.ok 100 100, fun _ _ => .ok "apple_pie" (9 / 10) (1 / 2), rateLimitEnv⟩

/-- Server run with a low-confidence (0.1) prediction and a working
provider. -/
def lowConfServerEnv : ServerEnv :=
  ⟨.ok 100 100, fun _ _ => .ok "pizza" (1 / 10) (1 / 2), okFoodsEnv⟩

/-- Classifier run with a 0.29-confidence prediction. -/
def lowConfClassEnv : ClassifierEnv :=
  ⟨.ok (), .ok 100 100, fun _ _ => .ok "pizza" (29 / 100) (1 / 2), okFoodsEnv⟩

/-- Classifier run with a 0.30-confidence prediction. -/
def midConfClassEnv : ClassifierEnv :=
  ⟨.ok (), .ok 100 100, fun _ _ => .ok "pizza" (3 / 10) (1 / 2), okFoodsEnv⟩

/-- Server run with an oversized 4000 times 3000 image. -/
def bigImageEnv : ServerEnv :=
  ⟨.ok 4000 3000, fun _ _ => .ok "pizza" (9 / 10) (1 / 2), okFoodsEnv⟩

/-- Server run with a tiny 10 times 10 image. -/
def tinyImageEnv : ServerEnv :=
  ⟨.ok 10 10, fun _ _ => .ok "pizza" (9 / 10) (1 / 2), okFoodsEnv⟩

/-- Classifier run with a tiny 10 times 10 image. -/
def tinyImageClassEnv : ClassifierEnv :=
  ⟨.ok (), .ok 10 10, fun _ _ => .ok "pizza" (9 / 10) (1 / 2), okFoodsEnv⟩

/-- Legacy run: everything succeeds but the provider's JSON body has no
`items` key. -/
def legacyMissingItemsEnv : LegacyEnv :=
  ⟨.ok (), .ok "pizza", fun _ => .ok ⟨200, .ok ⟨.missing⟩⟩⟩

/-- Whether the server's `get_nutrient` matching test succeeds for one
nutrient entry and search name (`false` also for a null name, which would
raise instead). -/
def serverMatches (n : FNutrient) (name : String) : Bool :=
  match nutrientNameStr n.nutrientName with
  | none => false
  | some s => containsSub (lowerStr name).toList (lowerStr s).toList

/-- Whether one nutrient entry gets assigned to the standardized name `s` by
the classifier's matching loop (`false` also for a null name, which would
raise instead). -/
def assignsTo (n : FNutrient) (s : StdNutrient) : Bool :=
  match nutrientNameStr n.nutrientName with
  | none => false
  | some nm => decide (matchStd nm = some s)

/-- The record `usdaExtract` produces for `zeroEnergyFood`. -/
def eggRecord : URecord :=
  { food_description := some "Egg"
    data_source := some "Unknown"
    fdc_id := none
    nutrients := ⟨some (some 0, some "kcal"), none, none, none, none, none, none⟩
    calories := some (some 0, some "kcal")
    protein := none
    fat := none
    carbs := none
    fiber := none
    sodium := none }

/- ==================== Theorems ==================== -/

/-- Both components of `finishServer` only repackage the extraction result;
the query list goes through unchanged. -/
theorem finishServer_snd (qs : List String) (food : UFood) :
    (finishServer qs food).2 = qs := by
  unfold finishServer
  cases serverExtract food <;> rfl

/-- The classifier's resolver always issues exactly one query: the cleaned
label. -/
theorem getUsdaRun_queries (env : HttpEnv) (name : String) :
    (getUsdaRun env name).2 = [cleanLabel name] := by
  unfold getUsdaRun
  cases henv : env (cleanLabel name) with
  | raise ex => simp only [henv]
  | ok resp =>
    simp only [henv]
    split_ifs <;> try rfl
    cases hj : resp.jsonBody with
    | error ex => simp only [hj]
    | ok sd =>
      simp only [hj]
      cases hf : foodsOf sd with
      | nil => simp only [hf]
      | cons food rest =>
        simp only [hf]
        cases usdaExtract (cleanLabel name) food <;> rfl

/-- C7 counterexample: the legacy server's pipeline is cited as part of the
resolver, yet on a label whose provider response parses to a JSON object
without an `items` key, `nutrition_data["items"]` raises KeyError and the
exception propagates to the caller, so `resolve` is not total there. -/
theorem c7_counterexample_legacy_raises :
    legacyPredict legacyMissingItemsEnv = .error .keyE := by decide

/-- C7 (amended): the rich server's `get_nutrition_data` and the
classifier's `get_nutrition_usda` are total: for every environment (any
status code, missing keys, null fields, parse failures, timeouts, connection
failures, arbitrary exceptions) and every label they return either a
nutrition record or an error dictionary; every exception their bodies can
raise is converted by their handlers.  The legacy server's inline lookup has
no handlers and propagates exceptions (see the counterexample). -/
theorem c7_amended_rich_resolvers_total :
    (∀ (env : HttpEnv) (label : String),
      (∃ r, get_nutrition_data env label = .record r) ∨
      (∃ e, get_nutrition_data env label = .errDict e)) ∧
    (∀ (env : HttpEnv) (name : String),
      (∃ r, get_nutrition_usda env name = .record r) ∨
      (∃ e, get_nutrition_usda env name = .errDict e)) := by
  constructor
  · intro env label
    cases h : get_nutrition_data env label with
    | record r => exact Or.inl ⟨r, rfl⟩
    | errDict e => exact Or.inr ⟨e, rfl⟩
  · intro env name
    cases h : get_nutrition_usda env name with
    | record r => exact Or.inl ⟨r, rfl⟩
    | errDict e => exact Or.inr ⟨e, rfl⟩

/-- C3 counterexample: with a successful lookup whose food has a literally
empty nutrient array (so every canonical nutrient is absent upstream), the
rich server's resolver reports every nutrient as the fabricated number `0`,
not as "not available". -/
theorem c3_counterexample_server_zero_for_absent :
    bareFood.foodNutrients = .val [] ∧
    get_nutrition_data bareFoodEnv "pizza" =
      .record ⟨some 0, some 0, some 0, some 0, some 0, some 0, some 0, some "Mystery"⟩ := by
  exact ⟨rfl, by decide⟩

/-- C4 counterexample: the rich server maps a 403 response to the generic
upstream error carrying the status, not to the authentication error the
claim requires for 403. -/
theorem c4_counterexample_403_not_auth :
    get_nutrition_data (fun _ => resp403) "pizza" = .errDict (.apiStatus 403) ∧
    get_nutrition_data (fun _ => resp403) "pizza" ≠ .errDict .authFailed := by
  exact ⟨by decide, by decide⟩

/-- C4 (amended): each resolver maps HTTP-level failures of its own call to
the taxonomy given by its spec-side map: the rich server sends 401 (only) to
the auth error, the classifier sends 403 (only) to the auth error; both send
429 to the rate-limit error, timeouts to the timeout error, connection
failures to the unavailability error, other non-200 statuses to the generic
upstream error carrying the status, and remaining exceptions to the
request-failed/unexpected errors. -/
theorem c4_amended_failure_taxonomy :
    (∀ (env : HttpEnv) (label : String) (e : NutriErr),
      specServerFailureMap (env (cleanLabel label)) = some e →
      get_nutrition_data env label = .errDict e) ∧
    (∀ (env : HttpEnv) (name : String) (e : NutriErr),
      specClassifierFailureMap (env (cleanLabel name)) = some e →
      get_nutrition_usda env name = .errDict e) := by
  constructor
  · intro env label e hm
    unfold get_nutrition_data getNutritionRun
    cases henv : env (cleanLabel label) with
    | raise ex =>
      rw [henv] at hm
      simp only [henv]
      cases ex <;> simp only [specServerFailureMap, Option.some.injEq] at hm <;>
        subst hm <;> rfl
    | ok resp =>
      rw [henv] at hm
      simp only [henv, specServerFailureMap] at hm ⊢
      by_cases h1 : resp.status = 401
      · simp only [if_pos h1, Option.some.injEq] at hm
        subst hm
        simp [h1]
      · by_cases h2 : resp.status = 429
        · simp only [if_neg h1, if_pos h2, Option.some.injEq] at hm
          subst hm
          simp [h1, h2]
        · by_cases h3 : resp.status = 200
          · simp only [if_neg h1, if_neg h2, if_pos h3] at hm
            exact absurd hm (by simp)
          · simp only [if_neg h1, if_neg h2, if_neg h3, Option.some.injEq] at hm
            subst hm
            simp [h1, h2, h3]
  · intro env name e hm
    unfold get_nutrition_usda getUsdaRun
    cases henv : env (cleanLabel name) with
    | raise ex =>
      rw [henv] at hm
      simp only [henv]
      cases ex <;> simp only [specClassifierFailureMap, Option.some.injEq] at hm <;>
        subst hm <;> rfl
    | ok resp =>
      rw [henv] at hm
      simp only [henv, specClassifierFailureMap] at hm ⊢
      by_cases h1 : resp.status = 403
      · simp only [if_pos h1, Option.some.injEq] at hm
        subst hm
        simp [h1]
      · by_cases h2 : resp.status = 429
        · simp only [if_neg h1, if_pos h2, Option.some.injEq] at hm
          subst hm
          simp [h1, h2]
        · by_cases h3 : resp.status = 200
          · simp only [if_neg h1, if_neg h2, if_pos h3] at hm
            exact absurd hm (by simp)
          · simp only [if_neg h1, if_neg h2, if_neg h3, Option.some.injEq] at hm
            subst hm
            simp [h1, h2, h3]

/-- Witness for the amended C4: a provider answering 401 is reported as an
auth failure by the rich server, and one answering 403 as an auth failure by
the classifier. -/
theorem c4_amended_witness :
    get_nutrition_data (fun _ => resp401) "pizza" = .errDict .authFailed ∧
    get_nutrition_usda (fun _ => resp403) "pizza" = .errDict .authFailed :=
  ⟨c4_amended_failure_taxonomy.1 (fun _ => resp401) "pizza" .authFailed (by decide),
   c4_amended_failure_taxonomy.2 (fun _ => resp403) "pizza" .authFailed (by decide)⟩

/-- Characterization of a run of the rich server's pipeline in which the
image decodes, survives the size checks and classifies successfully: the
result is the success envelope built around whatever the nutrition lookup
returned, and the run's effects are the inference invocation on the resized
dimensions plus the lookup's query trace. -/
theorem predict_success_shape (env : ServerEnv) (w h : Nat)
    (label : String) (conf t : ℚ)
    (hd : env.decode = .ok w h)
    (hsz : ¬ ((resizeDims w h).1 < 50 ∨ (resizeDims w h).2 < 50))
    (hi : env.infer (resizeDims w h).1 (resizeDims w h).2 = .ok label conf t) :
    predict_food_and_nutrition env =
      ⟨.okResp ⟨pyUnderscoreToSpace label, round3 conf,
        (getNutritionRun env.http label).1, round3 t⟩,
       some (resizeDims w h), (getNutritionRun env.http label).2⟩ := by
  unfold predict_food_and_nutrition
  rw [hd]
  simp only [if_neg hsz, hi]

/-- C1: when classification succeeds and the nutrition lookup returns an
error dictionary, the pipeline still returns the success-shaped envelope
with `predicted_food`, `confidence` and `inference_time`, the error carried
inside the `nutrition` field, and the `/analyze` route's top-level `"error"
in result` check still answers HTTP 200, never a top-level error. -/
theorem c1_nutrition_error_keeps_success (env : ServerEnv) (w h : Nat)
    (label : String) (conf t : ℚ) (e : NutriErr)
    (hd : env.decode = .ok w h)
    (hsz : ¬ ((resizeDims w h).1 < 50 ∨ (resizeDims w h).2 < 50))
    (hi : env.infer (resizeDims w h).1 (resizeDims w h).2 = .ok label conf t)
    (hn : get_nutrition_data env.http label = .errDict e) :
    (predict_food_and_nutrition env).result =
      .okResp ⟨pyUnderscoreToSpace label, round3 conf, .errDict e, round3 t⟩ ∧
    analyzeStatus (predict_food_and_nutrition env).result = 200 := by
  unfold get_nutrition_data at hn
  rw [predict_success_shape env w h label conf t hd hsz hi, hn]
  exact ⟨rfl, rfl⟩

/-- Witness for C1: a healthy image, a 0.9-confidence prediction and a
rate-limiting provider yield the success envelope carrying the rate-limit
error, served with HTTP 200 (the spec's own HTTP-429 example). -/
theorem c1_witness :
    (predict_food_and_nutrition env429).result =
      .okResp ⟨pyUnderscoreToSpace "apple_pie", round3 (9 / 10),
        .errDict .rateLimited, round3 (1 / 2)⟩ ∧
    analyzeStatus (predict_food_and_nutrition env429).result = 200 :=
  c1_nutrition_error_keeps_success env429 100 100 "apple_pie" (9 / 10) (1 / 2)
    .rateLimited rfl (by decide) rfl (by decide)

/-- C2 counterexample: the rich server's pipeline has no confidence gate.
With a 0.1-confidence classification (below the claimed 0.30 threshold) it
still issues the nutrition query and embeds the looked-up record — it does
not short-circuit, produces no warning and no skipped-lookup error. -/
theorem c2_counterexample_server_has_no_gate :
    (1 : ℚ) / 10 < 3 / 10 ∧
    (predict_food_and_nutrition lowConfServerEnv).queries = ["pizza"] ∧
    (predict_food_and_nutrition lowConfServerEnv).result =
      .okResp ⟨"pizza", round3 (1 / 10),
        .record ⟨some 95, some 0, some 0, some 0, some 0, some 0, some 0, some "Pizza"⟩,
        round3 (1 / 2)⟩ := by
  refine ⟨by norm_num, rfl, rfl⟩

/-- C2 (amended): the confidence gate exists only in the classifier
pipeline: there, a confidence below 0.30 short-circuits — the envelope
carries the prediction, the warning flag and the skipped-lookup error
dictionary in the nutrition slot, and no nutrition query is issued — while a
confidence of 0.30 or more proceeds to the nutrition lookup (exactly one
query with the cleaned readable label).  The rich server's pipeline performs
the nutrition lookup regardless of confidence. -/
theorem c2_amended_confidence_gate :
    (∀ (cenv : ClassifierEnv) (path : String) (w h : Nat) (label : String)
       (conf t : ℚ),
      cenv.pathValid = .ok () → cenv.decode = .ok w h → ¬ (w < 50 ∨ h < 50) →
      cenv.infer w h = .ok label conf t →
      ((conf < 3 / 10 →
          analyze_image cenv path =
            ⟨.okResp ⟨pyUnderscoreToSpace label, round3 conf, true,
              .errDict .skippedLowConfidence, round3 t, none⟩,
             some (w, h), []⟩) ∧
       (¬ conf < 3 / 10 →
          analyze_image cenv path =
            ⟨.okResp ⟨pyUnderscoreToSpace label, round3 conf, false,
              (getUsdaRun cenv.http (pyUnderscoreToSpace label)).1, round3 t,
              some (path, w, h)⟩,
             some (w, h), [cleanLabel (pyUnderscoreToSpace label)]⟩))) ∧
    (∀ (env : ServerEnv) (w h : Nat) (label : String) (conf t : ℚ),
      env.decode = .ok w h →
      ¬ ((resizeDims w h).1 < 50 ∨ (resizeDims w h).2 < 50) →
      env.infer (resizeDims w h).1 (resizeDims w h).2 = .ok label conf t →
      (predict_food_and_nutrition env).queries = (getNutritionRun env.http label).2 ∧
      (predict_food_and_nutrition env).result =
        .okResp ⟨pyUnderscoreToSpace label, round3 conf,
          get_nutrition_data env.http label, round3 t⟩) := by
  constructor
  · intro cenv path w h label conf t hp hd hsz hi
    have hbase :
        analyze_image cenv path =
          (if conf < 3 / 10 then
            ⟨.okResp ⟨pyUnderscoreToSpace label, round3 conf, true,
              .errDict .skippedLowConfidence, round3 t, none⟩, some (w, h), []⟩
          else
            ⟨.okResp ⟨pyUnderscoreToSpace label, round3 conf, false,
              (getUsdaRun cenv.http (pyUnderscoreToSpace label)).1, round3 t,
              some (path, w, h)⟩,
             some (w, h), (getUsdaRun cenv.http (pyUnderscoreToSpace label)).2⟩) := by
      unfold analyze_image
      rw [hp, hd]
      simp only [if_neg hsz, hi]
    constructor
    · intro hlow
      rw [hbase, if_pos hlow]
    · intro hhigh
      rw [hbase, if_neg hhigh, getUsdaRun_queries]
  · intro env w h label conf t hd hsz hi
    rw [predict_success_shape env w h label conf t hd hsz hi]
    exact ⟨rfl, rfl⟩

/-- Witness for the amended C2: a 0.29-confidence classifier run
short-circuits with the warning and no query; a 0.30-confidence run performs
the lookup; a 0.1-confidence server run also performs the lookup. -/
theorem c2_amended_witness :
    analyze_image lowConfClassEnv "food.jpg" =
      ⟨.okResp ⟨pyUnderscoreToSpace "pizza", round3 (29 / 100), true,
        .errDict .skippedLowConfidence, round3 (1 / 2), none⟩,
       some (100, 100), []⟩ ∧
    analyze_image midConfClassEnv "food.jpg" =
      ⟨.okResp ⟨pyUnderscoreToSpace "pizza", round3 (3 / 10), false,
        (getUsdaRun midConfClassEnv.http (pyUnderscoreToSpace "pizza")).1,
        round3 (1 / 2), some ("food.jpg", 100, 100)⟩,
       some (100, 100), [cleanLabel (pyUnderscoreToSpace "pizza")]⟩ ∧
    (predict_food_and_nutrition lowConfServerEnv).queries =
      (getNutritionRun lowConfServerEnv.http "pizza").2 :=
  ⟨(c2_amended_confidence_gate.1 lowConfClassEnv "food.jpg" 100 100 "pizza"
      (29 / 100) (1 / 2) rfl rfl (by decide) rfl).1 (by norm_num),
   (c2_amended_confidence_gate.1 midConfClassEnv "food.jpg" 100 100 "pizza"
      (3 / 10) (1 / 2) rfl rfl (by decide) rfl).2 (by norm_num),
   (c2_amended_confidence_gate.2 lowConfServerEnv 100 100 "pizza"
      (1 / 10) (1 / 2) rfl (by decide) rfl).1⟩

/-- Characterization of the rich resolver when the first query comes back
200 with zero matching items: the run continues into the fallback block with
both query terms recorded. -/
theorem getNutritionRun_fallback (env : HttpEnv) (label : String)
    (resp : HResp) (sd : SearchData)
    (h1 : env (cleanLabel label) = .ok resp) (h2 : resp.status = 200)
    (h3 : resp.jsonBody = .ok sd) (h4 : foodsOf sd = []) :
    getNutritionRun env label =
      (match env (fallbackTerm (cleanLabel label)) with
       | .raise ex =>
         (.errDict (handleExc ex), [cleanLabel label, fallbackTerm (cleanLabel label)])
       | .ok fresp =>
         match (if fresp.status = 200 then
                  match fresp.jsonBody with
                  | .error ex => Except.error ex
                  | .ok fd => Except.ok (foodsOf fd)
                else Except.ok ([] : List UFood)) with
         | .error ex =>
           (.errDict (handleExc ex), [cleanLabel label, fallbackTerm (cleanLabel label)])
         | .ok [] =>
           (.errDict (.notFound (cleanLabel label) serverSuggestion),
            [cleanLabel label, fallbackTerm (cleanLabel label)])
         | .ok (food :: _) =>
           finishServer [cleanLabel label, fallbackTerm (cleanLabel label)] food) := by
  unfold getNutritionRun
  simp only [h1, h2, h3, h4]
  norm_num

/-- C5: when the cleaned label has at least two words and the provider's
first query answers 200 with zero matching items, the resolver issues
exactly one more query, whose term is the first word of the cleaned label,
and no further queries after that — the full trace is those two terms,
whatever the fallback's outcome. -/
theorem c5_single_fallback_first_word (env : HttpEnv) (label : String)
    (resp : HResp) (sd : SearchData)
    (h1 : env (cleanLabel label) = .ok resp) (h2 : resp.status = 200)
    (h3 : resp.jsonBody = .ok sd) (h4 : foodsOf sd = [])
    (h5 : 2 ≤ (pySplitWs (cleanLabel label)).length) :
    (getNutritionRun env label).2 =
      [cleanLabel label, (pySplitWs (cleanLabel label)).headD (cleanLabel label)] := by
  have hfb : fallbackTerm (cleanLabel label) =
      (pySplitWs (cleanLabel label)).headD (cleanLabel label) := by
    unfold fallbackTerm
    rw [if_pos (by omega)]
  rw [getNutritionRun_fallback env label resp sd h1 h2 h3 h4]
  cases hf2 : env (fallbackTerm (cleanLabel label)) with
  | raise ex => simp only [hfb]
  | ok fresp =>
    by_cases hst : fresp.status = 200
    · simp only [if_pos hst]
      cases hj2 : fresp.jsonBody with
      | error ex => simp only [hfb]
      | ok fd =>
        cases hfd : foodsOf fd with
        | nil => simp only [hfd, hfb]
        | cons food rest => simp only [hfd, finishServer_snd, hfb]
    · simp only [if_neg hst, hfb]

/-- Witness for C5: the two-word label "fried_rice" against a provider with
no match for "fried rice" issues exactly the trace ["fried rice", "fried"]. -/
theorem c5_witness :
    (getNutritionRun fallbackHitsEnv "fried_rice").2 = ["fried rice", "fried"] := by
  rw [c5_single_fallback_first_word fallbackHitsEnv "fried_rice"
    ⟨200, .ok ⟨.val []⟩⟩ ⟨.val []⟩ (by decide) rfl rfl rfl (by decide)]
  decide

/-- C6: when both the initial query and the fallback query answer 200 with
zero matching items, the resolver returns the not-found error dictionary
whose `searched_term` is the original cleaned label (not the fallback term)
and whose `suggestion` tells the user to retake the photo. -/
theorem c6_both_empty_not_found (env : HttpEnv) (label : String)
    (resp : HResp) (sd : SearchData) (fresp : HResp) (sd2 : SearchData)
    (h1 : env (cleanLabel label) = .ok resp) (h2 : resp.status = 200)
    (h3 : resp.jsonBody = .ok sd) (h4 : foodsOf sd = [])
    (h5 : env (fallbackTerm (cleanLabel label)) = .ok fresp)
    (h6 : fresp.status = 200) (h7 : fresp.jsonBody = .ok sd2)
    (h8 : foodsOf sd2 = []) :
    get_nutrition_data env label =
      .errDict (.notFound (cleanLabel label) serverSuggestion) := by
  unfold get_nutrition_data
  rw [getNutritionRun_fallback env label resp sd h1 h2 h3 h4]
  simp only [h5, h6, h7, h8]
  norm_num

/-- Witness for C6: with zero matches for both "fried rice" and "fried", the
error dictionary carries `searched_term` "fried rice" — the original term,
not the fallback "fried" — plus the retake-the-photo suggestion. -/
theorem c6_witness :
    get_nutrition_data noFoodsEnv "fried_rice" =
      .errDict (.notFound "fried rice" serverSuggestion) := by
  rw [c6_both_empty_not_found noFoodsEnv "fried_rice"
    ⟨200, .ok ⟨.val []⟩⟩ ⟨.val []⟩ ⟨200, .ok ⟨.val []⟩⟩ ⟨.val []⟩
    (by decide) rfl rfl rfl (by decide) rfl rfl rfl]
  decide

/-- C10: when the first query answers 200 with zero items and the fallback
query's HTTP request comes back with any non-200 status (auth failure, rate
limit, server error, ...), the resolver reports the not-found error
dictionary with `searched_term` and `suggestion` — it does not map the
fallback's status through the upstream-error taxonomy. -/
theorem c10_failed_fallback_not_found (env : HttpEnv) (label : String)
    (resp : HResp) (sd : SearchData) (fresp : HResp)
    (h1 : env (cleanLabel label) = .ok resp) (h2 : resp.status = 200)
    (h3 : resp.jsonBody = .ok sd) (h4 : foodsOf sd = [])
    (h5 : env (fallbackTerm (cleanLabel label)) = .ok fresp)
    (h6 : fresp.status ≠ 200) :
    get_nutrition_data env label =
      .errDict (.notFound (cleanLabel label) serverSuggestion) := by
  unfold get_nutrition_data
  rw [getNutritionRun_fallback env label resp sd h1 h2 h3 h4]
  simp only [h5, if_neg h6]

/-- Witness for C10: an empty 200 for "fried rice" followed by a 429 on the
fallback "fried" still yields the not-found dictionary, not the rate-limit
error. -/
theorem c10_witness :
    get_nutrition_data fallback429Env "fried_rice" =
      .errDict (.notFound "fried rice" serverSuggestion) := by
  rw [c10_failed_fallback_not_found fallback429Env "fried_rice"
    ⟨200, .ok ⟨.val []⟩⟩ ⟨.val []⟩ ⟨429, .ok ⟨.missing⟩⟩
    (by decide) rfl rfl rfl (by decide) (by decide)]
  decide

/-- Dictionary lookup after assignment. -/
theorem NutrMap.get_set (m : NutrMap) (s t : StdNutrient) (e : Option NEntry) :
    (m.set s e).get t = if t = s then e else m.get t := by
  cases s <;> cases t <;> simp [NutrMap.set, NutrMap.get]

/-- The empty dictionary has no entries. -/
theorem NutrMap.get_empty (s : StdNutrient) : NutrMap.empty.get s = none := by
  cases s <;> rfl

/-- If no nutrient of the list is assigned to `s`, the loop leaves the entry
for `s` unchanged. -/
theorem buildNutrients_unassigned (fns : List FNutrient) (m m2 : NutrMap)
    (h : buildNutrients fns m = .ok m2) (s : StdNutrient)
    (hno : ∀ n ∈ fns, assignsTo n s = false) :
    m2.get s = m.get s := by
  induction fns generalizing m with
  | nil =>
    simp only [buildNutrients, Except.ok.injEq] at h
    rw [h]
  | cons n rest ih =>
    cases ha : addNutrient m n with
    | error ex =>
      simp only [buildNutrients, ha] at h
      cases h
    | ok m1 =>
      simp only [buildNutrients, ha] at h
      have hm1 : m1.get s = m.get s := by
        simp only [addNutrient] at ha
        cases hn : nutrientNameStr n.nutrientName with
        | none =>
          simp only [hn] at ha
          cases ha
        | some nm =>
          simp only [hn] at ha
          cases hms : matchStd nm with
          | none =>
            simp only [hms, Except.ok.injEq] at ha
            rw [← ha]
          | some s2 =>
            simp only [hms, Except.ok.injEq] at ha
            have hne : s ≠ s2 := by
              have hfalse := hno n (List.mem_cons_self _ _)
              simp only [assignsTo, hn, hms, decide_eq_false_iff_not,
                Option.some.injEq] at hfalse
              exact fun hss => hfalse hss.symm
            rw [← ha, NutrMap.get_set, if_neg hne]
      rw [ih m1 h (fun n' hn' => hno n' (List.mem_cons_of_mem _ hn')), hm1]

/-- Every entry the loop produces comes literally from some upstream
nutrient assigned to that standardized name. -/
theorem buildNutrients_from_upstream (fns : List FNutrient) (m m2 : NutrMap)
    (h : buildNutrients fns m = .ok m2) (s : StdNutrient) :
    m2.get s = m.get s ∨
    ∃ n ∈ fns, assignsTo n s = true ∧ m2.get s = some (entryOf n) := by
  induction fns generalizing m with
  | nil =>
    simp only [buildNutrients, Except.ok.injEq] at h
    rw [h]
    exact Or.inl rfl
  | cons n rest ih =>
    cases ha : addNutrient m n with
    | error ex =>
      simp only [buildNutrients, ha] at h
      cases h
    | ok m1 =>
      simp only [buildNutrients, ha] at h
      rcases ih m1 h with h1 | ⟨n', hn', hass, hval⟩
      · simp only [addNutrient] at ha
        cases hn : nutrientNameStr n.nutrientName with
        | none =>
          simp only [hn] at ha
          cases ha
        | some nm =>
          simp only [hn] at ha
          cases hms : matchStd nm with
          | none =>
            simp only [hms, Except.ok.injEq] at ha
            exact Or.inl (by rw [h1, ← ha])
          | some s2 =>
            simp only [hms, Except.ok.injEq] at ha
            by_cases hss : s = s2
            · subst hss
              refine Or.inr ⟨n, List.mem_cons_self _ _, ?_, ?_⟩
              · simp only [assignsTo, hn, hms]
                simp
              · rw [h1, ← ha, NutrMap.get_set, if_pos rfl]
            · exact Or.inl (by rw [h1, ← ha, NutrMap.get_set, if_neg hss])
      · exact Or.inr ⟨n', List.mem_cons_of_mem _ hn', hass, hval⟩

/-- The server's `get_nutrient` answers the fabricated `0` whenever nothing
in the list matches the search name (and no name is null). -/
theorem getNutrient_unmatched (fns : List FNutrient) (name : String)
    (hno : ∀ n ∈ fns,
      serverMatches n name = false ∧ nutrientNameStr n.nutrientName ≠ none) :
    getNutrient fns name = .ok (some 0) := by
  induction fns with
  | nil => rfl
  | cons n rest ih =>
    obtain ⟨hm, hnn⟩ := hno n (List.mem_cons_self _ _)
    unfold getNutrient
    cases hn : nutrientNameStr n.nutrientName with
    | none => exact absurd hn hnn
    | some s0 =>
      simp only [serverMatches, hn] at hm
      dsimp only
      rw [if_neg (by rw [hm]; simp)]
      exact ih (fun n' h' => hno n' (List.mem_cons_of_mem _ h'))

/-- Inversion of a successful `usdaAssemble`: the record's basic fields are
the dictionary entries and the dictionary is the loop's output. -/
theorem usdaAssemble_ok (clean : String) (food : UFood) (fns : List FNutrient)
    (r : URecord) (h : usdaAssemble clean food fns = .ok r) :
    ∃ m, buildNutrients fns NutrMap.empty = .ok m ∧ r.nutrients = m ∧
      r.calories = m.get .energy ∧ r.protein = m.get .protein ∧
      r.fat = m.get .fatTotal ∧ r.carbs = m.get .carb ∧
      r.fiber = m.get .fiber ∧ r.sodium = m.get .sodium := by
  unfold usdaAssemble at h
  cases hb : buildNutrients fns NutrMap.empty with
  | error ex =>
    simp only [hb] at h
    cases h
  | ok m =>
    simp only [hb] at h
    refine ⟨m, rfl, ?_⟩
    cases hd : food.description with
    | missing =>
      simp only [hd] at h
      cases h
    | null =>
      simp only [hd, Except.ok.injEq] at h
      subst h
      exact ⟨rfl, rfl, rfl, rfl, rfl, rfl, rfl⟩
    | val s =>
      simp only [hd, Except.ok.injEq] at h
      subst h
      exact ⟨rfl, rfl, rfl, rfl, rfl, rfl, rfl⟩

/-- C3 (amended): a canonical nutrient absent upstream is reported as the
number `0` by the rich server's resolver (see the counterexample for the
original claim), while the classifier's resolver reports it as "N/A"
(`none`) and fabricates nothing: on a successful extraction the basic fields
mirror the `nutrients` dictionary, a standardized name to which no upstream
nutrient is assigned stays "N/A", and every reported entry is literally the
value/unit pair of some upstream nutrient assigned to that name (so a zero
appears only when the upstream reports it — or reports a matching nutrient
without a `value` key, which `get("value", 0)` defaults to `0`). -/
theorem c3_amended_no_fabrication :
    (∀ (fns : List FNutrient) (name : String),
      (∀ n ∈ fns,
        serverMatches n name = false ∧ nutrientNameStr n.nutrientName ≠ none) →
      getNutrient fns name = .ok (some 0)) ∧
    (∀ (clean : String) (food : UFood) (fns : List FNutrient) (r : URecord),
      food.foodNutrients = .val fns → usdaExtract clean food = .ok r →
      (r.calories = r.nutrients.get .energy ∧ r.protein = r.nutrients.get .protein ∧
       r.fat = r.nutrients.get .fatTotal ∧ r.carbs = r.nutrients.get .carb ∧
       r.fiber = r.nutrients.get .fiber ∧ r.sodium = r.nutrients.get .sodium) ∧
      (∀ s : StdNutrient,
        ((∀ n ∈ fns, assignsTo n s = false) → r.nutrients.get s = none) ∧
        (∀ e, r.nutrients.get s = some e →
          ∃ n ∈ fns, assignsTo n s = true ∧ e = entryOf n))) := by
  constructor
  · exact getNutrient_unmatched
  · intro clean food fns r hf he
    unfold usdaExtract at he
    rw [hf] at he
    obtain ⟨m, hb, hnm, hcal, hpro, hfat, hcarb, hfib, hsod⟩ :=
      usdaAssemble_ok clean food fns r he
    constructor
    · rw [hnm]
      exact ⟨hcal, hpro, hfat, hcarb, hfib, hsod⟩
    · intro s
      constructor
      · intro hno
        rw [hnm, buildNutrients_unassigned fns NutrMap.empty m hb s hno,
          NutrMap.get_empty]
      · intro e hes
        rw [hnm] at hes
        rcases buildNutrients_from_upstream fns NutrMap.empty m hb s with
          h0 | ⟨n, hn, ha, hv⟩
        · rw [h0, NutrMap.get_empty] at hes
          cases hes
        · refine ⟨n, hn, ha, ?_⟩
          rw [hv] at hes
          exact (Option.some.inj hes).symm

/-- Witness for the amended C3: a list holding only a Water nutrient makes
the server report Energy as the fabricated `0`; the classifier's record for
`zeroEnergyFood` reports Protein as "N/A" and its Energy entry is literally
the upstream pair (0, "kcal"). -/
theorem c3_amended_witness :
    getNutrient [⟨.val "Water", .val 12, .val "g"⟩] "Energy" = .ok (some 0) ∧
    eggRecord.nutrients.get .protein = none ∧
    ∃ n ∈ [zeroEnergyNutrient], assignsTo n .energy = true ∧
      ((some 0, some "kcal") : NEntry) = entryOf n :=
  ⟨c3_amended_no_fabrication.1 [⟨.val "Water", .val 12, .val "g"⟩] "Energy" (by decide),
   ((c3_amended_no_fabrication.2 "egg" zeroEnergyFood [zeroEnergyNutrient] eggRecord
      rfl (by decide)).2 .protein).1 (by decide),
   ((c3_amended_no_fabrication.2 "egg" zeroEnergyFood [zeroEnergyNutrient] eggRecord
      rfl (by decide)).2 .energy).2 ((some 0, some "kcal") : NEntry) (by decide)⟩

/-- C9: in both pipelines, a decodable image whose dimensions (after the
server's downscaling) are below 50 px a side yields the "Image too small"
validation error, and neither inference nor any nutrition query happens. -/
theorem c9_too_small_no_inference :
    (∀ (env : ServerEnv) (w h : Nat), env.decode = .ok w h →
      ((resizeDims w h).1 < 50 ∨ (resizeDims w h).2 < 50) →
      predict_food_and_nutrition env = ⟨.errResp .tooSmall, none, []⟩) ∧
    (∀ (cenv : ClassifierEnv) (path : String) (w h : Nat),
      cenv.pathValid = .ok () → cenv.decode = .ok w h → (w < 50 ∨ h < 50) →
      analyze_image cenv path = ⟨.errResp .tooSmall, none, []⟩) := by
  constructor
  · intro env w h hd hsz
    unfold predict_food_and_nutrition
    rw [hd]
    simp only [if_pos hsz]
  · intro cenv path w h hp hd hsz
    unfold analyze_image
    rw [hp, hd]
    simp only [if_pos hsz]

/-- Witness for C9: a 10 by 10 image is rejected as too small by both
pipelines with no inference and no queries. -/
theorem c9_witness :
    predict_food_and_nutrition tinyImageEnv = ⟨.errResp .tooSmall, none, []⟩ ∧
    analyze_image tinyImageClassEnv "tiny.jpg" = ⟨.errResp .tooSmall, none, []⟩ :=
  ⟨c9_too_small_no_inference.1 tinyImageEnv 10 10 rfl (by decide),
   c9_too_small_no_inference.2 tinyImageClassEnv "tiny.jpg" 10 10 rfl rfl (by decide)⟩

/-- C8: for a decoded image with a side over 2000 px, the resized dimensions
both fit within the 2000 px bound, the aspect ratio is preserved within
rounding (the cross products differ by less than one pixel row/column), and
the downscaling happens before the minimum-size check and before inference:
the 50 px check reads the resized dimensions and the model is invoked on the
resized dimensions. -/
theorem c8_resize_before_checks (w h : Nat) (hw : 0 < w) (hh : 0 < h)
    (hbig : w > 2000 ∨ h > 2000) :
    (resizeDims w h).1 ≤ 2000 ∧ (resizeDims w h).2 ≤ 2000 ∧
    |((resizeDims w h).1 : ℤ) * h - ((resizeDims w h).2 : ℤ) * w| < max w h ∧
    (∀ env : ServerEnv, env.decode = .ok w h →
      ¬ ((resizeDims w h).1 < 50 ∨ (resizeDims w h).2 < 50) →
      (predict_food_and_nutrition env).inferred = some (resizeDims w h)) ∧
    (∀ env : ServerEnv, env.decode = .ok w h →
      ((resizeDims w h).1 < 50 ∨ (resizeDims w h).2 < 50) →
      (predict_food_and_nutrition env).result = .errResp .tooSmall ∧
      (predict_food_and_nutrition env).inferred = none) := by
  have hrw : resizeDims w h =
      (natFloor (w * min ((2000 : ℚ) / w) ((2000 : ℚ) / h)),
       natFloor (h * min ((2000 : ℚ) / w) ((2000 : ℚ) / h))) := by
    unfold resizeDims
    rw [if_pos hbig]
  have hw2 : (0 : ℚ) < w := by exact_mod_cast hw
  have hh2 : (0 : ℚ) < h := by exact_mod_cast hh
  have hw0 : (w : ℚ) ≠ 0 := ne_of_gt hw2
  have hh0 : (h : ℚ) ≠ 0 := ne_of_gt hh2
  have hs0 : (0 : ℚ) ≤ min ((2000 : ℚ) / w) ((2000 : ℚ) / h) :=
    le_min (by positivity) (by positivity)
  have hws : (w : ℚ) * min ((2000 : ℚ) / w) ((2000 : ℚ) / h) ≤ 2000 := by
    calc (w : ℚ) * min ((2000 : ℚ) / w) ((2000 : ℚ) / h)
        ≤ (w : ℚ) * ((2000 : ℚ) / w) :=
          mul_le_mul_of_nonneg_left (min_le_left _ _) (le_of_lt hw2)
      _ = 2000 := by field_simp
  have hhs : (h : ℚ) * min ((2000 : ℚ) / w) ((2000 : ℚ) / h) ≤ 2000 := by
    calc (h : ℚ) * min ((2000 : ℚ) / w) ((2000 : ℚ) / h)
        ≤ (h : ℚ) * ((2000 : ℚ) / h) :=
          mul_le_mul_of_nonneg_left (min_le_right _ _) (le_of_lt hh2)
      _ = 2000 := by field_simp
  have ha0 : (0 : ℤ) ≤ ⌊(w : ℚ) * min ((2000 : ℚ) / w) ((2000 : ℚ) / h)⌋ :=
    Int.floor_nonneg.mpr (by positivity)
  have hb0 : (0 : ℤ) ≤ ⌊(h : ℚ) * min ((2000 : ℚ) / w) ((2000 : ℚ) / h)⌋ :=
    Int.floor_nonneg.mpr (by positivity)
  have hbound1 : natFloor ((w : ℚ) * min ((2000 : ℚ) / w) ((2000 : ℚ) / h)) ≤ 2000 := by
    unfold natFloor
    rw [Int.toNat_le]
    calc ⌊(w : ℚ) * min ((2000 : ℚ) / w) ((2000 : ℚ) / h)⌋
        ≤ ⌊(2000 : ℚ)⌋ := Int.floor_le_floor hws
      _ = 2000 := by norm_num
  have hbound2 : natFloor ((h : ℚ) * min ((2000 : ℚ) / w) ((2000 : ℚ) / h)) ≤ 2000 := by
    unfold natFloor
    rw [Int.toNat_le]
    calc ⌊(h : ℚ) * min ((2000 : ℚ) / w) ((2000 : ℚ) / h)⌋
        ≤ ⌊(2000 : ℚ)⌋ := Int.floor_le_floor hhs
      _ = 2000 := by norm_num
  have haspect :
      |((natFloor ((w : ℚ) * min ((2000 : ℚ) / w) ((2000 : ℚ) / h))) : ℤ) * h -
        ((natFloor ((h : ℚ) * min ((2000 : ℚ) / w) ((2000 : ℚ) / h))) : ℤ) * w| <
        (max w h : ℕ) := by
    have haw : ((natFloor ((w : ℚ) * min ((2000 : ℚ) / w) ((2000 : ℚ) / h))) : ℤ) =
        ⌊(w : ℚ) * min ((2000 : ℚ) / w) ((2000 : ℚ) / h)⌋ := by
      unfold natFloor
      exact Int.toNat_of_nonneg ha0
    have hbw : ((natFloor ((h : ℚ) * min ((2000 : ℚ) / w) ((2000 : ℚ) / h))) : ℤ) =
        ⌊(h : ℚ) * min ((2000 : ℚ) / w) ((2000 : ℚ) / h)⌋ := by
      unfold natFloor
      exact Int.toNat_of_nonneg hb0
    rw [haw, hbw, abs_lt]
    have h1 : ((⌊(w : ℚ) * min ((2000 : ℚ) / w) ((2000 : ℚ) / h)⌋ : ℚ)) ≤
        (w : ℚ) * min ((2000 : ℚ) / w) ((2000 : ℚ) / h) := Int.floor_le _
    have h2 : (w : ℚ) * min ((2000 : ℚ) / w) ((2000 : ℚ) / h) <
        ⌊(w : ℚ) * min ((2000 : ℚ) / w) ((2000 : ℚ) / h)⌋ + 1 := Int.lt_floor_add_one _
    have h3 : ((⌊(h : ℚ) * min ((2000 : ℚ) / w) ((2000 : ℚ) / h)⌋ : ℚ)) ≤
        (h : ℚ) * min ((2000 : ℚ) / w) ((2000 : ℚ) / h) := Int.floor_le _
    have h4 : (h : ℚ) * min ((2000 : ℚ) / w) ((2000 : ℚ) / h) <
        ⌊(h : ℚ) * min ((2000 : ℚ) / w) ((2000 : ℚ) / h)⌋ + 1 := Int.lt_floor_add_one _
    constructor
    · have hlow : -(h : ℚ) <
          (⌊(w : ℚ) * min ((2000 : ℚ) / w) ((2000 : ℚ) / h)⌋ : ℚ) * h -
          (⌊(h : ℚ) * min ((2000 : ℚ) / w) ((2000 : ℚ) / h)⌋ : ℚ) * w := by
        nlinarith [mul_lt_mul_of_pos_right h2 hh2, mul_le_mul_of_nonneg_right h3 (le_of_lt hw2)]
      have hmax : (h : ℚ) ≤ ((max w h : ℕ) : ℚ) := by exact_mod_cast le_max_right w h
      have : -(((max w h : ℕ) : ℚ)) <
          (⌊(w : ℚ) * min ((2000 : ℚ) / w) ((2000 : ℚ) / h)⌋ : ℚ) * h -
          (⌊(h : ℚ) * min ((2000 : ℚ) / w) ((2000 : ℚ) / h)⌋ : ℚ) * w := by
        linarith
      exact_mod_cast this
    · have hup : (⌊(w : ℚ) * min ((2000 : ℚ) / w) ((2000 : ℚ) / h)⌋ : ℚ) * h -
          (⌊(h : ℚ) * min ((2000 : ℚ) / w) ((2000 : ℚ) / h)⌋ : ℚ) * w < (w : ℚ) := by
        nlinarith [mul_lt_mul_of_pos_right h4 hw2, mul_le_mul_of_nonneg_right h1 (le_of_lt hh2)]
      have hmax : (w : ℚ) ≤ ((max w h : ℕ) : ℚ) := by exact_mod_cast le_max_left w h
      have : (⌊(w : ℚ) * min ((2000 : ℚ) / w) ((2000 : ℚ) / h)⌋ : ℚ) * h -
          (⌊(h : ℚ) * min ((2000 : ℚ) / w) ((2000 : ℚ) / h)⌋ : ℚ) * w <
          ((max w h : ℕ) : ℚ) := by
        linarith
      exact_mod_cast this
  refine ⟨?_, ?_, ?_, ?_, ?_⟩
  · rw [hrw]
    exact hbound1
  · rw [hrw]
    exact hbound2
  · rw [hrw]
    exact haspect
  · intro env hd hsz
    unfold predict_food_and_nutrition
    rw [hd]
    simp only [if_neg hsz]
    cases env.infer (resizeDims w h).1 (resizeDims w h).2 <;> rfl
  · intro env hd hsz
    have hres : predict_food_and_nutrition env = ⟨.errResp .tooSmall, none, []⟩ := by
      unfold predict_food_and_nutrition
      rw [hd]
      simp only [if_pos hsz]
    rw [hres]
    exact ⟨rfl, rfl⟩

/-- Witness for C8: a 4000 by 3000 image is downscaled to 2000 by 1500,
within bounds with the aspect ratio preserved, and inference runs on the
resized dimensions. -/
theorem c8_witness :
    (resizeDims 4000 3000).1 ≤ 2000 ∧ (resizeDims 4000 3000).2 ≤ 2000 ∧
    |((resizeDims 4000 3000).1 : ℤ) * 3000 - ((resizeDims 4000 3000).2 : ℤ) * 4000| <
      max 4000 3000 ∧
    (predict_food_and_nutrition bigImageEnv).inferred = some (resizeDims 4000 3000) ∧
    resizeDims 4000 3000 = (2000, 1500) := by
  have hr : resizeDims 4000 3000 = (2000, 1500) := by
    have hmin : min ((2000 : ℚ) / (4000 : ℕ)) ((2000 : ℚ) / (3000 : ℕ)) = 1 / 2 := by
      rw [min_eq_left (by push_cast; norm_num)]
      push_cast
      norm_num
    unfold resizeDims natFloor
    rw [if_pos (by norm_num)]
    rw [hmin]
    norm_num
    exact ⟨rfl, rfl⟩
  obtain ⟨h1, h2, h3, h4, _⟩ :=
    c8_resize_before_checks 4000 3000 (by norm_num) (by norm_num) (by norm_num)
  exact ⟨h1, h2, h3, h4 bigImageEnv rfl (by rw [hr]; decide), hr⟩
